import Mathlib

/- Formal model of the account subsystem of
   thinkster_django_angular_boilerplate.

   The embedding is shallow: each Python function of the repository is
   translated into a Lean function over explicit state.  The database is a
   list of account rows; exceptions are Except values; Python string
   truthiness is modelled explicitly.  Framework collaborators that the
   repository calls (password hashing, session auth hash bookkeeping,
   permission evaluation) are modelled from their documented behaviour and
   marked as such in their doc comments. -/

/-- Python truthiness of an optional string value: None and the empty
string are falsy, every other string is truthy. -/
def pyTruthy : Option String → Bool
  | none => false
  | some s => !s.isEmpty

/-- Modelled from the framework (BaseUserManager.normalize_email): strip
the address, split on the last at-sign and lowercase the domain part; an
address without an at-sign is returned stripped.  Implemented over the
character list of the string with structural recursion so that concrete
inputs evaluate inside proofs. -/
def normalize_email (email : String) : String :=
  let chars := email.toList
  let stripped :=
    ((chars.dropWhile Char.isWhitespace).reverse.dropWhile Char.isWhitespace).reverse
  match stripped.reverse.span (fun c => !(c == '@')) with
  | (_, []) => String.mk stripped
  | (domRev, _ :: localRev) =>
      String.mk (localRev.reverse ++ ('@' :: (domRev.reverse.map Char.toLower)))

/-- Modelled from the framework (AbstractBaseUser.set_password with the
configured password hasher, an external collaborator of the repository):
a one-way hash of the plaintext, stored with the algorithm tag in front
as Django hashers do.  Passing None stores an unusable password, which
Django marks with a leading exclamation point. -/
def hashPassword : Option String → String
  | some p => "pbkdf2_sha256$" ++ p
  | none => "!unusable"

/-- Account row (models.py, class Account, plus the password and
last_login columns inherited from AbstractBaseUser and the implicit id
primary key).  Note the source spells the first name column fist_name. -/
structure Account where
  id : Nat
  email : String
  username : String
  password : String
  fist_name : String
  last_name : String
  tagline : String
  is_admin : Bool
  created_at : Nat
  updated_at : Nat
deriving Repr, DecidableEq

/-- AbstractBaseUser.set_password on an Account row: replace the stored
password with the one-way hash of the plaintext; the row is not
persisted until an explicit save. -/
def Account.set_password (a : Account) (plaintext : Option String) : Account :=
  { a with password := hashPassword plaintext }

/-- Errors raised by the store layer: the two ValueError raises of
AccountManager.create_user, and the database IntegrityError coming from
the unique=True constraints on email and username in models.py. -/
inductive Err where
  | valueErrorEmail
  | valueErrorUsername
  | integrityEmail
  | integrityUsername
deriving Repr, DecidableEq

/-- The persistent store: the list of saved account rows. -/
abbrev Store := List Account

/-- Saving a fresh row (first Account.save of create_user): the database
enforces the unique=True constraints on email and username declared in
models.py, rejecting the insert with an IntegrityError when another row
already holds the value; otherwise the row is appended. -/
def insertAccount (store : Store) (a : Account) : Except Err Store :=
  if store.any (fun b => b.email == a.email) then
    .error .integrityEmail
  else if store.any (fun b => b.username == a.username) then
    .error .integrityUsername
  else
    .ok (store ++ [a])

/-- Saving an already-persisted row (Account.save on an existing row):
the row with the same primary key is replaced in place. -/
def saveExisting (store : Store) (a : Account) : Store :=
  store.map (fun b => if b.id == a.id then a else b)

/-- AccountManager.create_user (models.py).  Raises ValueError when the
email or the username keyword is falsy; otherwise builds the row with
the normalized email and the username, defaulted display fields, the
is_admin=False default of the model, auto_now timestamps, hashes the
password via set_password and saves it.  The error branches return
before any row is built, so an error leaves the store untouched. -/
def create_user (store : Store) (email : Option String)
    (password : Option String) (username : Option String) (now : Nat) :
    Except Err (Store × Account) :=
  if !pyTruthy email then
    .error .valueErrorEmail
  else if !pyTruthy username then
    .error .valueErrorUsername
  else
    let base : Account :=
      { id := store.length + 1
        email := normalize_email (email.getD "")
        username := username.getD ""
        password := ""
        fist_name := ""
        last_name := ""
        tagline := ""
        is_admin := false
        created_at := now
        updated_at := now }
    let a := base.set_password password
    match insertAccount store a with
    | .error e => .error e
    | .ok store2 => .ok (store2, a)

/-- AccountManager.create_superuser (models.py): delegates creation to
create_user, then sets is_admin to True and saves again. -/
def create_superuser (store : Store) (email : Option String)
    (password : Option String) (username : Option String) (now : Nat) :
    Except Err (Store × Account) :=
  match create_user store email password username now with
  | .error e => .error e
  | .ok (store2, a) =>
      let a2 := { a with is_admin := true }
      .ok (saveExisting store2 a2, a2)

/-- Python values that appear as arguments of the str.join call in
Account.get_full_name: strings and lists. -/
inductive PyVal where
  | str : String → PyVal
  | list : List PyVal → PyVal

/-- Python runtime errors relevant here. -/
inductive PyErr where
  | typeErrorArity
  | typeErrorItem
deriving Repr, DecidableEq

/-- Elements of a joined iterable must all be strings. -/
def joinItems (sep : String) (xs : List PyVal) : Except PyErr String :=
  match xs with
  | [] => .ok ""
  | [PyVal.str s] => .ok s
  | PyVal.str s :: rest =>
      match joinItems sep rest with
      | .ok t => .ok (s ++ sep ++ t)
      | .error e => .error e
  | _ => .error .typeErrorItem

/-- Modelled from the Python runtime: str.join is a method of signature
(self, iterable), so a call must pass exactly one positional argument
besides the receiver; any other arity raises TypeError before the
iterable is even inspected.  A string argument is iterated as its
one-character strings. -/
def strJoin (sep : String) (args : List PyVal) : Except PyErr String :=
  match args with
  | [PyVal.list xs] => joinItems sep xs
  | [PyVal.str s] => joinItems sep (s.toList.map (fun c => PyVal.str (String.mk [c])))
  | _ => .error .typeErrorArity

/-- Account.get_full_name (models.py): the source passes the separator
two positional arguments, a one-element list holding fist_name and then
last_name, instead of a single iterable. -/
def Account.get_full_name (a : Account) : Except PyErr String :=
  strJoin " " [PyVal.list [PyVal.str a.fist_name], PyVal.str a.last_name]

/-- Account.get_short_name (models.py). -/
def Account.get_short_name (a : Account) : String :=
  a.fist_name

/-- Field names of the Account model as the database sees them: the
implicit id primary key, password and last_login inherited from
AbstractBaseUser, and the columns declared in models.py (note the
fist_name spelling of the source). -/
def Account.model_field_names : List String :=
  ["id", "password", "last_login", "email", "username", "fist_name",
   "last_name", "tagline", "is_admin", "created_at", "updated_at"]

/-- Serializer fields declared explicitly at the top of AccountSerializer
(serializers.py): password and confirm_password, both CharField with
write_only=True and required=False. -/
def AccountSerializer.declared_field_names : List String :=
  ["password", "confirm_password"]

/-- The fields tuple of AccountSerializer.Meta, copied verbatim from
serializers.py. -/
def AccountSerializer.meta_fields : List String :=
  ["id", "email", "user_name", "created_at", "updated_at", "first_name",
   "last_name", "tagline", "password", "confirm_password"]

/-- The read_only_fields tuple of AccountSerializer.Meta. -/
def AccountSerializer.read_only_fields : List String :=
  ["created_at", "updated_at"]

/-- Names a ModelSerializer accepts in its fields tuple: attributes of
the configured model together with the explicitly declared serializer
fields; any other name is rejected by the framework when the serializer
class is instantiated. -/
def AccountSerializer.valid_field_names : List String :=
  Account.model_field_names ++ AccountSerializer.declared_field_names

/-- Incoming request data for the create endpoint, holding the writable
account attributes a client may submit.  The username entry is written
user_name in the Meta fields tuple of the source; the embedding uses the
model spelling and records the discrepancy separately over the
meta_fields list. -/
structure CreatePayload where
  email : Option String
  username : Option String
  password : Option String
  confirm_password : Option String
  tagline : Option String
deriving Repr, DecidableEq

/-- Errors that abort a request inside the create endpoint: the
ImproperlyConfigured raised while the serializer fields are built, and
database errors propagating uncaught out of the store layer. -/
inductive ViewErr where
  | improperlyConfigured
  | db : Err → ViewErr
deriving Repr, DecidableEq

/-- Modelled from the framework (ModelSerializer.get_fields and
build_unknown_field): the first access to the serializer fields, which
happens inside is_valid(), walks Meta.fields and raises
ImproperlyConfigured at any name that is neither an attribute of the
configured model nor an explicitly declared field.  With the verbatim
tuples of the source this fails, at user_name and at first_name. -/
def serializerFieldsBuild : Except ViewErr Unit :=
  if AccountSerializer.meta_fields.all
      (fun f => AccountSerializer.valid_field_names.contains f) then
    .ok ()
  else
    .error .improperlyConfigured

/-- Validation the serializer applies once its fields exist, modelled
from the field declarations: email and username come from required model
fields and must be present and non-blank; password and confirm_password
are CharField(required=False) whose allow_blank default rejects a
submitted empty string; the unique=True constraints of the model add
uniqueness validators that compare the submitted value against the
stored rows.  In the program this point is reached only after
serializerFieldsBuild succeeds, which the verbatim Meta.fields prevent;
the definition reads the user_name entry as the model's username and
leaves format and length validators unmodelled. -/
def AccountSerializer.is_valid (store : Store) (d : CreatePayload) : Bool :=
  pyTruthy d.email && pyTruthy d.username
    && d.password != some "" && d.confirm_password != some ""
    && !(store.any (fun b => b.email == d.email.getD ""))
    && !(store.any (fun b => b.username == d.username.getD ""))

/-- HTTP response: a status code and a JSON object body rendered as
key-value pairs. -/
structure Response where
  status : Nat
  body : List (String × String)
deriving Repr, DecidableEq

/-- Renders one optional validated entry into the response body. -/
def entryOf (k : String) : Option String → List (String × String)
  | none => []
  | some v => [(k, v)]

/-- serializer.validated_data as the view hands it to Response: every
writable field present in the validated input, the write-only password
fields included, since validated_data is the validated input and not the
serialized representation. -/
def validatedEntries (d : CreatePayload) : List (String × String) :=
  entryOf "email" d.email ++ entryOf "username" d.username
    ++ entryOf "tagline" d.tagline ++ entryOf "password" d.password
    ++ entryOf "confirm_password" d.confirm_password

/-- AccountViewSet.create (views.py): the call to serializer.is_valid()
first builds the serializer fields, which with the verbatim Meta.fields
raises ImproperlyConfigured out of the view before anything else runs;
were the fields to build, the view would validate the request data and
on success call Account.objects.create_user with the validated data,
call set_password again with the raw request password, save, and return
a 201 response whose body is serializer.validated_data, and on
validation failure the 400 response with the structured error body.
Database errors escaping create_user or save are likewise uncaught. -/
def AccountViewSet.create (store : Store) (request_data : CreatePayload)
    (now : Nat) : Except ViewErr (Response × Store) :=
  match serializerFieldsBuild with
  | .error e => .error e
  | .ok () =>
    if AccountSerializer.is_valid store request_data then
      match create_user store request_data.email request_data.password
          request_data.username now with
      | .error e => .error (.db e)
      | .ok (store1, account) =>
          let account2 := account.set_password request_data.password
          let store2 := saveExisting store1 account2
          .ok ({ status := 201, body := validatedEntries request_data }, store2)
    else
      .ok ({ status := 400,
             body := [("status", "Bad request"),
                      ("message", "Account could not be created with received data.")] },
           store)

/-- Permission checks that appear in AccountViewSet.get_permissions:
AllowAny and IsAuthenticated belong to the framework, IsAccountOwner to
the repository. -/
inductive Permission where
  | AllowAny
  | IsAuthenticated
  | IsAccountOwner
deriving Repr, DecidableEq

/-- An entry of the tuple returned by get_permissions: either a
permission instance, or a permission class handed over without being
instantiated, as the source does with permissions.IsAuthenticated. -/
inductive PermEntry where
  | obj : Permission → PermEntry
  | uninstantiated : Permission → PermEntry
deriving Repr, DecidableEq

/-- SAFE_METHODS of the framework: the HTTP verbs that do not mutate. -/
def SAFE_METHODS : List String := ["GET", "HEAD", "OPTIONS"]

/-- AccountViewSet.get_permissions (views.py), verbatim: safe methods
and POST answer a tuple holding an AllowAny instance; every other method
answers the permissions.IsAuthenticated class itself, without the
instantiating parentheses, next to an IsAccountOwner instance. -/
def get_permissions (method : String) : List PermEntry :=
  if SAFE_METHODS.contains method then [PermEntry.obj Permission.AllowAny]
  else if method == "POST" then [PermEntry.obj Permission.AllowAny]
  else [PermEntry.uninstantiated Permission.IsAuthenticated,
        PermEntry.obj Permission.IsAccountOwner]

/-- Modelled from the spec: IsAccountOwner lives in
authentication/permissions.py, which is not among the provided source
files; per the spec it requires the identity of the authenticated caller
to equal the account being modified. -/
def IsAccountOwner_check (caller : Option Nat) (target : Account) : Bool :=
  caller == some target.id

/-- has_permission of a permission instance, with AllowAny and
IsAuthenticated modelled from their documented framework behaviour:
AllowAny always passes and IsAuthenticated requires an authenticated
caller. -/
def Permission.check (p : Permission) (caller : Option Nat)
    (target : Account) : Bool :=
  match p with
  | .AllowAny => true
  | .IsAuthenticated => caller.isSome
  | .IsAccountOwner => IsAccountOwner_check caller target

/-- How a permission dispatch ends when it does not run the handler: a
refusing instance surfaces as Forbidden, while invoking has_permission
on an uninstantiated class raises TypeError, because the two call
arguments land on the self and request parameters of the unbound method
and the view argument is left missing. -/
inductive DispatchErr where
  | forbidden
  | typeError
deriving Repr, DecidableEq

/-- Modelled from the framework (APIView.check_permissions): walk the
entries of get_permissions in order and call has_permission on each; a
class entry raises TypeError at the call, a refusing instance aborts
with Forbidden, and the handler runs only when every entry passes. -/
def check_permissions : List PermEntry → Option Nat → Account → Except DispatchErr Unit
  | [], _, _ => .ok ()
  | PermEntry.uninstantiated _ :: _, _, _ => .error .typeError
  | PermEntry.obj p :: rest, caller, target =>
      if p.check caller target then check_permissions rest caller target
      else .error .forbidden

/-- The permission gate one request must pass before its handler runs on
the target account. -/
def enforce_permissions (method : String) (caller : Option Nat)
    (target : Account) : Except DispatchErr Unit :=
  check_permissions (get_permissions method) caller target

/-- Incoming validated data for the update endpoint: the attributes
AccountSerializer.update reads. -/
structure UpdatePayload where
  username : Option String
  tagline : Option String
  password : Option String
  confirm_password : Option String
deriving Repr, DecidableEq

/-- Serializer validation of the optional password pair on update: both
are CharField(required=False) whose allow_blank default rejects a
submitted empty string, so a value reaching validated_data is never the
empty string. -/
def updatePayloadValidated (d : UpdatePayload) : Bool :=
  d.password != some "" && d.confirm_password != some ""

/-- The password branch guard of AccountSerializer.update, verbatim from
the source: password and confirm_password are truthy and equal. -/
def pwUpdateCond (d : UpdatePayload) : Bool :=
  pyTruthy d.password && pyTruthy d.confirm_password
    && d.password == d.confirm_password

/-- Modelled from the framework (AbstractBaseUser.get_session_auth_hash):
an HMAC of the stored password hash, which identifies the session. -/
def session_auth_hash (password_hash : String) : String :=
  "hmac$" ++ password_hash

/-- The session of the acting request: the identity it authenticates, if
any, and the session auth hash recorded at login. -/
structure SessionState where
  user_id : Option Nat
  auth_hash : String
deriving Repr, DecidableEq

/-- A session identifies a user when it carries that user and its
recorded auth hash matches the hash derived from the stored password. -/
def sessionAuthenticated (s : SessionState) (u : Account) : Bool :=
  s.user_id == some u.id && s.auth_hash == session_auth_hash u.password

/-- Modelled from the framework
(django.contrib.auth.update_session_auth_hash): when the session of the
request belongs to the given user, the session auth hash is re-issued
from the current stored password so the acting session stays logged in;
a session of someone else is left alone. -/
def update_session_auth_hash (s : SessionState) (u : Account) : SessionState :=
  if s.user_id == some u.id then
    { s with auth_hash := session_auth_hash u.password }
  else
    s

/-- Everything observable about one run of AccountSerializer.update: the
returned account, the sequence of rows passed to Account.save in order,
the resulting store and the resulting session of the request. -/
structure UpdateResult where
  account : Account
  saves : List Account
  store : Store
  session : SessionState
deriving Repr, DecidableEq

/-- AccountSerializer.update (serializers.py): takes username and tagline
from validated_data when present, else keeps the current values, and
saves; then reads password and confirm_password and, only when both are
truthy and equal, applies set_password and saves again; finally calls
update_session_auth_hash on the request session unconditionally and
returns the instance.  No branch raises. -/
def AccountSerializer.update (store : Store) (inst : Account)
    (validated_data : UpdatePayload) (session : SessionState) : UpdateResult :=
  let inst1 : Account :=
    { inst with
      username := validated_data.username.getD inst.username
      tagline := validated_data.tagline.getD inst.tagline }
  let store1 := saveExisting store inst1
  if pwUpdateCond validated_data then
    let inst2 := inst1.set_password validated_data.password
    let store2 := saveExisting store1 inst2
    { account := inst2
      saves := [inst1, inst2]
      store := store2
      session := update_session_auth_hash session inst2 }
  else
    { account := inst1
      saves := [inst1]
      store := store1
      session := update_session_auth_hash session inst1 }

/-- The content of the store after a store operation: the updated store
when the operation succeeded, the untouched one when it raised, since a
raise aborts before any row is written. -/
def storeAfter (store : Store) (r : Except Err (Store × Account)) : Store :=
  match r with
  | .ok (s2, _) => s2
  | .error _ => store

/-- A non-empty string is not isEmpty. -/
theorem isEmpty_false {s : String} (h : s ≠ "") : s.isEmpty = false := by
  cases he : s.isEmpty
  · rfl
  · exact absurd ((String.isEmpty_iff s).mp he) h

/-- A present non-empty value is Python-truthy. -/
theorem pyTruthy_some {s : String} (h : s ≠ "") : pyTruthy (some s) = true := by
  simp [pyTruthy, isEmpty_false h]

/-- The hash of a plaintext differs from the plaintext: the stored value
carries the algorithm tag in front, so it is strictly longer. -/
theorem hashPassword_some_ne (p : String) : hashPassword (some p) ≠ p := by
  intro h
  have hlen := congrArg String.length h
  rw [hashPassword] at hlen
  simp [String.length_append] at hlen
  exact absurd hlen (by decide)

/-- On a validated payload, the truthiness guard of the password branch
coincides with the pair being present and equal. -/
theorem pwUpdateCond_iff {d : UpdatePayload} (hv : updatePayloadValidated d = true) :
    pwUpdateCond d = true ↔ ∃ p, d.password = some p ∧ d.confirm_password = some p := by
  cases hp : d.password with
  | none => simp [pwUpdateCond, pyTruthy, hp]
  | some a =>
    cases hc : d.confirm_password with
    | none => simp [pwUpdateCond, pyTruthy, hc]
    | some b =>
      simp [updatePayloadValidated, hp, hc] at hv
      simp [pwUpdateCond, pyTruthy, hp, hc, isEmpty_false hv.1, isEmpty_false hv.2]
      constructor
      · intro h
        subst h
        rfl
      · intro h
        subst h
        rfl

/-- Claim C10: for every account, get_full_name raises a TypeError,
because str.join is invoked with two positional arguments instead of one
iterable, so the operation never returns a full name for any input. -/
theorem C10_get_full_name_raises_type_error (a : Account) :
    a.get_full_name = Except.error PyErr.typeErrorArity := rfl

/-- Claim C1, counter-evidence at a concrete input: the program never
produces the claimed 201-without-password body at all, because the
is_valid() call raises ImproperlyConfigured out of the invalid
Meta.fields tuple before the view reaches its Response line; and the
body that line passes to Response is serializer.validated_data, whose
rendering contains the submitted password and confirm_password values,
contrary to the write_only declarations the claim describes. -/
theorem C1_create_raises_before_the_201_body :
    AccountViewSet.create []
      { email := some "a@x.com", username := some "alice",
        password := some "pw1", confirm_password := some "pw1",
        tagline := none } 0 = Except.error ViewErr.improperlyConfigured
    ∧ ("password", "pw1") ∈ validatedEntries
        { email := some "a@x.com", username := some "alice",
          password := some "pw1", confirm_password := some "pw1",
          tagline := none }
    ∧ ("confirm_password", "pw1") ∈ validatedEntries
        { email := some "a@x.com", username := some "alice",
          password := some "pw1", confirm_password := some "pw1",
          tagline := none } := by
  refine ⟨rfl, ?_, ?_⟩ <;> decide

/-- Claim C6, counter-evidence: the Meta fields tuple names user_name
and first_name, neither of which is an Account model attribute or a
declared serializer field (the model spells them username and
fist_name), so the transfer layer does not expose the field set the
claim lists; the read_only declaration of created_at and updated_at is
as claimed. -/
theorem C6_meta_fields_do_not_match_the_model :
    "user_name" ∈ AccountSerializer.meta_fields
    ∧ "username" ∉ AccountSerializer.meta_fields
    ∧ "user_name" ∉ AccountSerializer.valid_field_names
    ∧ "first_name" ∈ AccountSerializer.meta_fields
    ∧ "first_name" ∉ AccountSerializer.valid_field_names
    ∧ "fist_name" ∈ Account.model_field_names
    ∧ "created_at" ∈ AccountSerializer.read_only_fields
    ∧ "updated_at" ∈ AccountSerializer.read_only_fields := by
  decide

/-- Claim C3, counter-evidence: safe verbs and POST pass the gate for
any caller as claimed, but for every caller, the authenticated owner
included, PUT, PATCH and DELETE crash with TypeError, because the
uninstantiated permissions.IsAuthenticated class is the first entry the
dispatch calls has_permission on; no update or delete request is ever
allowed, and none is ever answered with Forbidden. -/
theorem C3_unsafe_verbs_raise_type_error (caller : Option Nat) (target : Account) :
    enforce_permissions "GET" caller target = Except.ok ()
    ∧ enforce_permissions "POST" caller target = Except.ok ()
    ∧ enforce_permissions "PUT" caller target = Except.error DispatchErr.typeError
    ∧ enforce_permissions "PATCH" caller target = Except.error DispatchErr.typeError
    ∧ enforce_permissions "DELETE" caller target = Except.error DispatchErr.typeError :=
  ⟨rfl, rfl, rfl, rfl, rfl⟩

/-- Claim C4: on every account and every validated update payload, the
update sets username and tagline to the payload values when present and
keeps the current values otherwise, and it replaces the stored password
hash via set_password followed by a save exactly when password and
confirm_password are both present and equal, leaving the stored hash
unchanged in every other case.  The validation hypothesis reflects the
allow_blank default of the CharField declarations, which keeps an empty
string out of validated_data. -/
theorem C4_update_field_semantics (store : Store) (inst : Account)
    (d : UpdatePayload) (s : SessionState)
    (hv : updatePayloadValidated d = true) :
    (AccountSerializer.update store inst d s).account.username
        = d.username.getD inst.username
    ∧ (AccountSerializer.update store inst d s).account.tagline
        = d.tagline.getD inst.tagline
    ∧ ((∃ p, d.password = some p ∧ d.confirm_password = some p) →
        (AccountSerializer.update store inst d s).account.password
            = hashPassword d.password
        ∧ (AccountSerializer.update store inst d s).saves.getLast?
            = some (AccountSerializer.update store inst d s).account)
    ∧ ((¬ ∃ p, d.password = some p ∧ d.confirm_password = some p) →
        (AccountSerializer.update store inst d s).account.password
            = inst.password) := by
  have hiff := pwUpdateCond_iff hv
  cases hcond : pwUpdateCond d with
  | true =>
    refine ⟨?_, ?_, ?_, ?_⟩
    · simp [AccountSerializer.update, hcond, Account.set_password]
    · simp [AccountSerializer.update, hcond, Account.set_password]
    · intro _
      constructor
      · simp [AccountSerializer.update, hcond, Account.set_password]
      · simp [AccountSerializer.update, hcond]
    · intro h
      exact absurd (hiff.mp hcond) h
  | false =>
    refine ⟨?_, ?_, ?_, ?_⟩
    · simp [AccountSerializer.update, hcond]
    · simp [AccountSerializer.update, hcond]
    · intro h
      exact absurd (hiff.mpr h) (by simp [hcond])
    · intro _
      simp [AccountSerializer.update, hcond]

/-- Claim C4 witness: a concrete update that renames the account, leaves
the tagline alone and supplies a matching password pair lands on the new
username, the old tagline and the freshly hashed password. -/
theorem C4_update_field_semantics_witness :
    (AccountSerializer.update
        [⟨1, "a@x.com", "alice", "h0", "", "", "t0", false, 0, 0⟩]
        ⟨1, "a@x.com", "alice", "h0", "", "", "t0", false, 0, 0⟩
        ⟨some "bob", none, some "new", some "new"⟩
        ⟨some 1, "hmac$h0"⟩).account.username = "bob"
    ∧ (AccountSerializer.update
        [⟨1, "a@x.com", "alice", "h0", "", "", "t0", false, 0, 0⟩]
        ⟨1, "a@x.com", "alice", "h0", "", "", "t0", false, 0, 0⟩
        ⟨some "bob", none, some "new", some "new"⟩
        ⟨some 1, "hmac$h0"⟩).account.tagline = "t0"
    ∧ (AccountSerializer.update
        [⟨1, "a@x.com", "alice", "h0", "", "", "t0", false, 0, 0⟩]
        ⟨1, "a@x.com", "alice", "h0", "", "", "t0", false, 0, 0⟩
        ⟨some "bob", none, some "new", some "new"⟩
        ⟨some 1, "hmac$h0"⟩).account.password = hashPassword (some "new") := by
  have h := C4_update_field_semantics
      [⟨1, "a@x.com", "alice", "h0", "", "", "t0", false, 0, 0⟩]
      ⟨1, "a@x.com", "alice", "h0", "", "", "t0", false, 0, 0⟩
      ⟨some "bob", none, some "new", some "new"⟩
      ⟨some 1, "hmac$h0"⟩ (by decide)
  exact ⟨h.1, h.2.1, (h.2.2.1 ⟨"new", rfl, rfl⟩).1⟩

/-- Claim C8: when the owner of the session updates the password with a
present, matching pair, the update stores the new hash and the
unconditional update_session_auth_hash call re-issues the session auth
hash from it within the same request, so the acting session still
authenticates the account afterwards. -/
theorem C8_session_stays_authenticated (store : Store) (inst : Account)
    (d : UpdatePayload) (s : SessionState) (p : String)
    (howner : s.user_id = some inst.id)
    (hp : p ≠ "") (hpw : d.password = some p) (hcp : d.confirm_password = some p) :
    (AccountSerializer.update store inst d s).account.password = hashPassword (some p)
    ∧ sessionAuthenticated (AccountSerializer.update store inst d s).session
        (AccountSerializer.update store inst d s).account = true := by
  have hcond : pwUpdateCond d = true := by
    simp [pwUpdateCond, hpw, hcp, pyTruthy, isEmpty_false hp]
  simp [AccountSerializer.update, hcond, Account.set_password, hpw,
        update_session_auth_hash, sessionAuthenticated, howner]

/-- Claim C8 witness: a concrete owner session stays authenticated after
its password change. -/
theorem C8_session_stays_authenticated_witness :
    (AccountSerializer.update
        [⟨1, "a@x.com", "alice", "h0", "", "", "t0", false, 0, 0⟩]
        ⟨1, "a@x.com", "alice", "h0", "", "", "t0", false, 0, 0⟩
        ⟨none, none, some "new", some "new"⟩
        ⟨some 1, "hmac$h0"⟩).account.password = hashPassword (some "new")
    ∧ sessionAuthenticated
        (AccountSerializer.update
          [⟨1, "a@x.com", "alice", "h0", "", "", "t0", false, 0, 0⟩]
          ⟨1, "a@x.com", "alice", "h0", "", "", "t0", false, 0, 0⟩
          ⟨none, none, some "new", some "new"⟩
          ⟨some 1, "hmac$h0"⟩).session
        (AccountSerializer.update
          [⟨1, "a@x.com", "alice", "h0", "", "", "t0", false, 0, 0⟩]
          ⟨1, "a@x.com", "alice", "h0", "", "", "t0", false, 0, 0⟩
          ⟨none, none, some "new", some "new"⟩
          ⟨some 1, "hmac$h0"⟩).account = true :=
  C8_session_stays_authenticated
    [⟨1, "a@x.com", "alice", "h0", "", "", "t0", false, 0, 0⟩]
    ⟨1, "a@x.com", "alice", "h0", "", "", "t0", false, 0, 0⟩
    ⟨none, none, some "new", some "new"⟩
    ⟨some 1, "hmac$h0"⟩ "new" rfl (by decide) rfl rfl

/-- Claim C9: the username and tagline changes are the first row handed
to save, still carrying the old password hash, so they are persisted
before the password pair is examined; and when the pair is missing or
mismatched that save is the only one, the update returns that account
without an error and the store keeps the change. -/
theorem C9_name_changes_persist_before_password_check (store : Store)
    (inst : Account) (d : UpdatePayload) (s : SessionState)
    (hv : updatePayloadValidated d = true) :
    (AccountSerializer.update store inst d s).saves.head?
        = some { inst with username := d.username.getD inst.username,
                           tagline := d.tagline.getD inst.tagline }
    ∧ ({ inst with username := d.username.getD inst.username,
                   tagline := d.tagline.getD inst.tagline } : Account).password
        = inst.password
    ∧ ((¬ ∃ p, d.password = some p ∧ d.confirm_password = some p) →
        (AccountSerializer.update store inst d s).saves
          = [{ inst with username := d.username.getD inst.username,
                         tagline := d.tagline.getD inst.tagline }]
        ∧ (AccountSerializer.update store inst d s).account
          = { inst with username := d.username.getD inst.username,
                        tagline := d.tagline.getD inst.tagline }
        ∧ (AccountSerializer.update store inst d s).store
          = saveExisting store { inst with username := d.username.getD inst.username,
                                           tagline := d.tagline.getD inst.tagline }) := by
  have hiff := pwUpdateCond_iff hv
  refine ⟨?_, rfl, ?_⟩
  · cases hcond : pwUpdateCond d <;>
      simp [AccountSerializer.update, hcond]
  · intro h
    have hcond : pwUpdateCond d = false := by
      cases hcond : pwUpdateCond d
      · rfl
      · exact absurd (hiff.mp hcond) h
    simp [AccountSerializer.update, hcond]

/-- Claim C9 witness: a concrete rename whose password field comes
without its confirmation persists the rename, returns the renamed
account and saves nothing else. -/
theorem C9_name_changes_persist_witness :
    (AccountSerializer.update
        [⟨1, "a@x.com", "alice", "h0", "", "", "t0", false, 0, 0⟩]
        ⟨1, "a@x.com", "alice", "h0", "", "", "t0", false, 0, 0⟩
        ⟨some "bob", none, some "x", none⟩
        ⟨some 1, "hmac$h0"⟩).saves
      = [⟨1, "a@x.com", "bob", "h0", "", "", "t0", false, 0, 0⟩]
    ∧ (AccountSerializer.update
        [⟨1, "a@x.com", "alice", "h0", "", "", "t0", false, 0, 0⟩]
        ⟨1, "a@x.com", "alice", "h0", "", "", "t0", false, 0, 0⟩
        ⟨some "bob", none, some "x", none⟩
        ⟨some 1, "hmac$h0"⟩).account
      = ⟨1, "a@x.com", "bob", "h0", "", "", "t0", false, 0, 0⟩
    ∧ (AccountSerializer.update
        [⟨1, "a@x.com", "alice", "h0", "", "", "t0", false, 0, 0⟩]
        ⟨1, "a@x.com", "alice", "h0", "", "", "t0", false, 0, 0⟩
        ⟨some "bob", none, some "x", none⟩
        ⟨some 1, "hmac$h0"⟩).store
      = [⟨1, "a@x.com", "bob", "h0", "", "", "t0", false, 0, 0⟩] := by
  have h := C9_name_changes_persist_before_password_check
      [⟨1, "a@x.com", "alice", "h0", "", "", "t0", false, 0, 0⟩]
      ⟨1, "a@x.com", "alice", "h0", "", "", "t0", false, 0, 0⟩
      ⟨some "bob", none, some "x", none⟩
      ⟨some 1, "hmac$h0"⟩ (by decide)
  have h3 := h.2.2 (by rintro ⟨p, -, hc⟩; simp at hc)
  exact ⟨h3.1, h3.2.1, h3.2.2⟩

/-- Claim C5: create_user raises ValueError when the email or the
username is missing or blank, raises the conflict IntegrityError of the
unique constraints when the email or the username is already held by a
stored row, and in each of those cases the store is left unchanged, so
no account is created. -/
theorem C5_create_user_rejections (store : Store)
    (email password username : Option String) (now : Nat) :
    (pyTruthy email = false →
        create_user store email password username now = Except.error Err.valueErrorEmail
        ∧ storeAfter store (create_user store email password username now) = store)
    ∧ (pyTruthy email = true → pyTruthy username = false →
        create_user store email password username now = Except.error Err.valueErrorUsername
        ∧ storeAfter store (create_user store email password username now) = store)
    ∧ (pyTruthy email = true → pyTruthy username = true →
        (∃ b ∈ store, b.email = normalize_email (email.getD "")) →
        create_user store email password username now = Except.error Err.integrityEmail
        ∧ storeAfter store (create_user store email password username now) = store)
    ∧ (pyTruthy email = true → pyTruthy username = true →
        (∀ b ∈ store, b.email ≠ normalize_email (email.getD "")) →
        (∃ b ∈ store, b.username = username.getD "") →
        create_user store email password username now = Except.error Err.integrityUsername
        ∧ storeAfter store (create_user store email password username now) = store) := by
  refine ⟨?_, ?_, ?_, ?_⟩
  · intro h
    have hres : create_user store email password username now
        = Except.error Err.valueErrorEmail := by
      simp [create_user, h]
    exact ⟨hres, by simp [storeAfter, hres]⟩
  · intro h1 h2
    have hres : create_user store email password username now
        = Except.error Err.valueErrorUsername := by
      simp [create_user, h1, h2]
    exact ⟨hres, by simp [storeAfter, hres]⟩
  · intro h1 h2 hdup
    have hany : store.any (fun b => b.email == normalize_email (email.getD "")) = true := by
      rw [List.any_eq_true]
      obtain ⟨b, hb, he⟩ := hdup
      exact ⟨b, hb, by simp [he]⟩
    have hres : create_user store email password username now
        = Except.error Err.integrityEmail := by
      simp [create_user, h1, h2, insertAccount, Account.set_password, hany]
    exact ⟨hres, by simp [storeAfter, hres]⟩
  · intro h1 h2 hne hdup
    have hany : store.any (fun b => b.email == normalize_email (email.getD "")) = false := by
      rw [List.any_eq_false]
      intro b hb
      simp [hne b hb]
    have hany2 : store.any (fun b => b.username == username.getD "") = true := by
      rw [List.any_eq_true]
      obtain ⟨b, hb, hu⟩ := hdup
      exact ⟨b, hb, by simp [hu]⟩
    have hres : create_user store email password username now
        = Except.error Err.integrityUsername := by
      simp [create_user, h1, h2, insertAccount, Account.set_password, hany, hany2]
    exact ⟨hres, by simp [storeAfter, hres]⟩

/-- Claim C5 witness: creating a second account with the email of a
stored one fails with the conflict error, and creating without a
username fails with the missing-username error. -/
theorem C5_create_user_rejections_witness :
    create_user [⟨1, "a@x.com", "alice", "h0", "", "", "", false, 0, 0⟩]
        (some "a@x.com") (some "pw") (some "bob") 0 = Except.error Err.integrityEmail
    ∧ create_user [] (some "b@x.com") (some "pw") none 0
        = Except.error Err.valueErrorUsername := by
  constructor
  · exact ((C5_create_user_rejections
        [⟨1, "a@x.com", "alice", "h0", "", "", "", false, 0, 0⟩]
        (some "a@x.com") (some "pw") (some "bob") 0).2.2.1 (by decide) (by decide)
        ⟨⟨1, "a@x.com", "alice", "h0", "", "", "", false, 0, 0⟩, by simp, by decide⟩).1
  · exact ((C5_create_user_rejections [] (some "b@x.com") (some "pw") none 0).2.1
        (by decide) (by decide)).1

/-- Claim C7: create_superuser fails exactly when create_user fails, and
on success it yields the very account create_user yields with is_admin
turned to true and saved, while the account create_user yields always
has the is_admin=false default. -/
theorem C7_superuser_same_then_admin (store : Store)
    (email password username : Option String) (now : Nat) :
    (∀ e, create_user store email password username now = Except.error e →
        create_superuser store email password username now = Except.error e)
    ∧ (∀ store2 a, create_user store email password username now = Except.ok (store2, a) →
        a.is_admin = false
        ∧ create_superuser store email password username now
            = Except.ok (saveExisting store2 { a with is_admin := true },
                         { a with is_admin := true })) := by
  constructor
  · intro e he
    simp [create_superuser, he]
  · intro store2 a ha
    refine ⟨?_, by simp [create_superuser, ha]⟩
    unfold create_user at ha
    split at ha
    · cases ha
    · split at ha
      · cases ha
      · unfold insertAccount at ha
        dsimp only at ha
        split at ha
        · cases ha
        · cases ha
          rfl

/-- Claim C7 witness: on a concrete fresh input the plain creation
stores is_admin false and create_superuser stores the same account
flipped to admin. -/
theorem C7_superuser_same_then_admin_witness :
    (⟨1, "a@x.com", "alice", "pbkdf2_sha256$pw", "", "", "", false, 0, 0⟩ : Account).is_admin = false
    ∧ create_superuser [] (some "a@x.com") (some "pw") (some "alice") 0
        = Except.ok
            (saveExisting [⟨1, "a@x.com", "alice", "pbkdf2_sha256$pw", "", "", "", false, 0, 0⟩]
               ⟨1, "a@x.com", "alice", "pbkdf2_sha256$pw", "", "", "", true, 0, 0⟩,
             ⟨1, "a@x.com", "alice", "pbkdf2_sha256$pw", "", "", "", true, 0, 0⟩) := by
  have h := (C7_superuser_same_then_admin [] (some "a@x.com") (some "pw") (some "alice") 0).2
      [⟨1, "a@x.com", "alice", "pbkdf2_sha256$pw", "", "", "", false, 0, 0⟩]
      ⟨1, "a@x.com", "alice", "pbkdf2_sha256$pw", "", "", "", false, 0, 0⟩ (by rfl)
  exact ⟨h.1, h.2⟩

/-- On truthy inputs without stored collisions, create_user succeeds and
returns the appended row, with the normalized email, the username, the
hashed password, the display defaults, is_admin false and both
timestamps set. -/
theorem create_user_ok (store : Store) (e p u : Option String) (now : Nat)
    (h1 : pyTruthy e = true) (h2 : pyTruthy u = true)
    (hbn : store.any (fun b => b.email == normalize_email (e.getD "")) = false)
    (hbu : store.any (fun b => b.username == u.getD "") = false) :
    create_user store e p u now
      = Except.ok
          (store ++ [⟨store.length + 1, normalize_email (e.getD ""), u.getD "",
                      hashPassword p, "", "", "", false, now, now⟩],
           ⟨store.length + 1, normalize_email (e.getD ""), u.getD "",
            hashPassword p, "", "", "", false, now, now⟩) := by
  simp [create_user, h1, h2, insertAccount, Account.set_password, hbn, hbu]

/-- Re-saving a just-appended row under the same id keeps it in the
store. -/
theorem mem_saveExisting_append (store : Store) (a a2 : Account) (h : a2.id = a.id) :
    a2 ∈ saveExisting (store ++ [a]) a2 := by
  unfold saveExisting
  refine List.mem_map.mpr ⟨a, by simp, ?_⟩
  simp [h]

